import Mathlib

/-!
Shallow embedding of the CodeBase fact-checking pipeline
(run_stage2_verification.py, generate_final_summary.py,
scientific_fact_checker.py, build_master_flagged_list.py,
document_retrieval.py, run_stage1.py) and proofs about it.

Numbers: Python floats are modelled as exact rationals (ℚ); Python ints as
ℤ or ℕ.  Python dicts that the code builds with fixed keys are modelled as
Lean structures; where the code performs a dynamic `dict.get` whose key may
be absent, an explicit association-list view of the structure is used so
that key lookup is modelled faithfully.  Python string helpers
(`str.strip`, `str.lower`) are modelled as explicit functions over the
character list so that concrete instances evaluate inside the kernel.
-/

/-- Python exception kinds that the modelled code can raise. -/
inductive PyErr where
  | typeError
  | valueError
  | attributeError
  deriving DecidableEq, Repr

/-- Python `str.strip()`: remove whitespace from both ends. -/
def strStrip (s : String) : String :=
  String.mk (((s.data.dropWhile Char.isWhitespace).reverse.dropWhile
    Char.isWhitespace).reverse)

/-- Python `str.lower()` (ASCII case-folding, as in `Char.toLower`). -/
def strLower (s : String) : String :=
  String.mk (s.data.map Char.toLower)

/-- Python `key.strip("|")`: remove pipe characters from both ends. -/
def stripPipes (s : String) : String :=
  String.mk (((s.data.dropWhile (· = '|')).reverse.dropWhile (· = '|')).reverse)

/-- Python `x or y` on strings: the empty string is falsy. -/
def pyOrStr (x y : String) : String := if x = "" then y else x

/-- One per-pass verdict sample for one assertion, as appended to
`all_pass_results` in run_stage2_verification.py (keys "index",
"final_verdict", "confidence"; "reasoning" and "pass_id" are irrelevant to
aggregation and omitted). -/
structure Sample where
  index : Int
  final_verdict : String
  confidence : Rat
  deriving DecidableEq, Repr

/-- One aggregated record per assertion, mirroring the dict literal built
at run_stage2_verification.py lines 161-169. -/
structure AggRecord where
  index : Int
  majority_verdict : String
  agreement_ratio : Rat
  mean_confidence : Rat
  num_supported : Int
  num_refuted : Int
  num_uncertain : Int
  deriving DecidableEq, Repr

/-- First occurrences of the elements of `l`, in order of first appearance
(the key order of a `collections.Counter` built from `l`). -/
def uniqFirst (l : List String) : List String :=
  l.foldl (fun acc x => if x ∈ acc then acc else acc ++ [x]) []

/-- Python `statistics.mode` (Python ≥ 3.8): the most common element of the
data; when several elements share the maximal multiplicity, the first one
encountered in the data.  Returns `none` exactly when the data is empty
(where Python raises StatisticsError). -/
def pyMode (l : List String) : Option String :=
  match uniqFirst l with
  | [] => none
  | x :: xs => some (xs.foldl (fun best y => if l.count best < l.count y then y else best) x)

/-- Round-half-to-even on ℚ, the tie behaviour of Python `round`. -/
def roundHalfEven (q : Rat) : Int :=
  let f : Int := ⌊q⌋
  if q - f < 1 / 2 then f
  else if 1 / 2 < q - f then f + 1
  else if f % 2 = 0 then f else f + 1

/-- Python `round(x, 4)` on the exact rational model of x. -/
def round4 (q : Rat) : Rat :=
  (roundHalfEven (q * 10000) : Rat) / 10000

/-- The body of the aggregation loop of run_stage2_verification.py
(lines 148-169) for one assertion index `idx` and its grouped per-pass
results: the `try: mode(verdicts) except: "Uncertain"` majority vote, the
agreement ratio, mean confidence, and the three per-label counts. -/
def aggregateGroup (idx : Int) (results : List Sample) : AggRecord :=
  let verdicts := results.map (·.final_verdict)
  let confs := results.map (·.confidence)
  let majority := (pyMode verdicts).getD "Uncertain"
  { index := idx
    majority_verdict := majority
    agreement_ratio := round4 ((verdicts.count majority : Rat) / (verdicts.length : Rat))
    mean_confidence := round4 (confs.sum / (confs.length : Rat))
    num_supported := verdicts.count "Supported"
    num_refuted := verdicts.count "Refuted"
    num_uncertain := verdicts.count "Uncertain" }

/-- Append `r` to the group of key `k` in an association list, creating the
group at the end when absent: the effect of
`grouped.setdefault(r["index"], []).append(r)` on an insertion-ordered
Python dict. -/
def upsertAppend (acc : List (Int × List Sample)) (k : Int) (r : Sample) :
    List (Int × List Sample) :=
  if acc.any (·.1 = k) then
    acc.map (fun p => if p.1 = k then (p.1, p.2 ++ [r]) else p)
  else
    acc ++ [(k, [r])]

/-- The grouping loop of run_stage2_verification.py lines 142-144: group
the flat per-pass results by assertion index, keys in first-appearance
order, each group in arrival order. -/
def groupByIndex (l : List Sample) : List (Int × List Sample) :=
  l.foldl (fun acc r => upsertAppend acc r.index r) []

/-- The per-pass collection loop of run_stage2_verification.py lines
106-129 reduced to its data flow: each pass either yields a parsed list of
results (`some rs`) or fails to parse (`none`, the `continue` branch) and
contributes nothing to `all_pass_results`. -/
def collectSamples (passes : List (Option (List Sample))) : List Sample :=
  (passes.filterMap id).flatten

/-- The aggregation phase of run_stage2_verification.py (lines 142-169):
group all surviving per-pass results by assertion index and aggregate each
group. -/
def stage2Aggregate (passes : List (Option (List Sample))) : List AggRecord :=
  (groupByIndex (collectSamples passes)).map (fun p => aggregateGroup p.1 p.2)

/-- Lookup of the group stored under key `k` in the association-list model
of the Python grouping dict. -/
def lookupGroup (acc : List (Int × List Sample)) (k : Int) : Option (List Sample) :=
  (acc.find? (fun p => p.1 = k)).map (·.2)

/-- The keys of the grouping accumulator. -/
def groupKeys (acc : List (Int × List Sample)) : List Int := acc.map (·.1)

/-- The `_compute_final_decision` function of generate_final_summary.py
(lines 47-66): the `or "Uncertain"` coalescing treats the empty string as
falsy, `strong = 0.6`, then the two threshold branches and the
"Needs Review" default.  The coalesced initial verdict is bound but, as in
the source, never used by any branch. -/
def compute_final_decision (initial_verdict majority_verdict : String)
    (agreement_ratio : Rat) : String :=
  let mv := if majority_verdict = "" then "Uncertain" else majority_verdict
  let _iv := if initial_verdict = "" then "Uncertain" else initial_verdict
  if mv = "Supported" ∧ agreement_ratio ≥ 0.6 then "Supported"
  else if mv = "Refuted" ∧ agreement_ratio ≥ 0.6 then "Refuted"
  else "Needs Review"

/-- A parsed JSON value, the possible results of `json.loads`. -/
inductive JValue where
  | jnull
  | jbool (b : Bool)
  | jnum (q : Rat)
  | jstr (s : String)
  | jarr (elems : List JValue)
  | jobj (fields : List (String × JValue))

/-- Python `data.get(key, default)`: succeeds on a dict (JSON object),
raises AttributeError on every other value, which has no `.get` method. -/
def pyObjGet (j : JValue) (key : String) (dflt : JValue) : Except PyErr JValue :=
  match j with
  | .jobj fields => .ok (((fields.find? (fun p => p.1 = key)).map (·.2)).getD dflt)
  | _ => .error .attributeError

/-- Python `float(v)` on a JSON value.  Numbers and booleans convert;
null, arrays and objects raise TypeError; strings raise ValueError when
not numeric (conversion of numeric strings is not modelled — no claim here
involves a string-valued confidence). -/
def pyFloat (v : JValue) : Except PyErr Rat :=
  match v with
  | .jnum q => .ok q
  | .jbool b => .ok (if b then 1 else 0)
  | .jstr _ => .error .valueError
  | .jnull => .error .typeError
  | .jarr _ => .error .typeError
  | .jobj _ => .error .typeError

/-- The per-pass verdict record built by `fact_check_single_pass`
(scientific_fact_checker.py lines 186-205). -/
structure PassRecord where
  assertion : String
  final_verdict : JValue
  reasoning : JValue
  confidence : Rat
  run_id : Int
  pass_id : Int

/-- scientific_fact_checker.py `fact_check_single_pass`, from the point
where the oracle's response text is in hand: `parsed` is `none` when
`json.loads(response.text)` raises (the `except` branch returning the
fallback record) and `some data` when it yields `data`; the normal branch
reads the three fields with `data.get` and coerces confidence with
`float`. -/
def fact_check_single_pass (assertion responseText : String)
    (parsed : Option JValue) (run_id pass_id : Int) : Except PyErr PassRecord :=
  match parsed with
  | none =>
      .ok { assertion := assertion, final_verdict := .jstr "Uncertain",
            reasoning := .jstr responseText, confidence := 0,
            run_id := run_id, pass_id := pass_id }
  | some data => do
      let v ← pyObjGet data "final_verdict" (.jstr "Uncertain")
      let rsn ← pyObjGet data "reasoning" (.jstr "")
      let c ← pyObjGet data "confidence" (.jnum 0)
      let conf ← pyFloat c
      .ok { assertion := assertion, final_verdict := v, reasoning := rsn,
            confidence := conf, run_id := run_id, pass_id := pass_id }

/-- The parameter names accepted by
`ScientificFactChecker.fact_check_assertions` (scientific_fact_checker.py
line 210: `def fact_check_assertions(self, assertions, run_id=1)`). -/
def fact_check_assertions_params : List String := ["assertions", "run_id"]

/-- The keyword arguments passed at the call site run_stage1.py lines
79-83: `checker.fact_check_assertions(assertions, run_id=run_id,
pass_id=pass_id)`. -/
def stage1_call_keywords : List String := ["run_id", "pass_id"]

/-- The ways run_stage1 can finish without an exception: the three logged
early returns and normal completion. -/
inductive Stage1Outcome where
  | abortedMissingChapter
  | abortedEmptyChapter
  | abortedNoAssertions
  | abortedNoResults
  | completed
  deriving DecidableEq, Repr

/-- run_stage1.py `run_stage1`, modelled on its control flow: the
missing-file, empty-chapter and no-assertions guards log and return early;
then the call `checker.fact_check_assertions(assertions, run_id=run_id,
pass_id=pass_id)` is performed, and per Python calling convention a
keyword argument not among the callee's parameters raises TypeError before
the callee's body runs.  The oracle-dependent data (chapter text,
extracted assertions, fact-check results) are inputs of the model. -/
def run_stage1 (chapterExists : Bool) (chapterText : String)
    (extracted : List String) (factCheckResults : List PassRecord) :
    Except PyErr Stage1Outcome :=
  if chapterExists = false then .ok .abortedMissingChapter
  else if chapterText = "" then .ok .abortedEmptyChapter
  else if extracted = [] then .ok .abortedNoAssertions
  else if stage1_call_keywords.any
      (fun k => (fact_check_assertions_params.contains k) = false) then
    .error .typeError
  else if factCheckResults.isEmpty then .ok .abortedNoResults
  else .ok .completed

/-- A dynamic Python value as stored in the merge step's records. -/
inductive PyVal where
  | vint (n : Int)
  | vstr (s : String)
  | vrat (q : Rat)
  deriving DecidableEq, Repr

/-- The JSON-dict view of an aggregate record as written by Stage 2:
exactly the seven keys of the dict literal at run_stage2_verification.py
lines 161-169 (in particular, no "final_decision" key). -/
def AggRecord.toDict (r : AggRecord) : List (String × PyVal) :=
  [("index", .vint r.index),
    ("majority_verdict", .vstr r.majority_verdict),
    ("agreement_ratio", .vrat r.agreement_ratio),
    ("mean_confidence", .vrat r.mean_confidence),
    ("num_supported", .vint r.num_supported),
    ("num_refuted", .vint r.num_refuted),
    ("num_uncertain", .vint r.num_uncertain)]

/-- Python `d.get(key)` on a dict view; `none` models Python's None. -/
def dictGet (d : List (String × PyVal)) (k : String) : Option PyVal :=
  (d.find? (fun p => p.1 = k)).map (·.2)

/-- build_master_flagged_list.py line 107:
`maj = s2.get("majority_verdict", "Uncertain")`, where `s2` is `{}` when
the assertion index has no Stage-2 record. -/
def mergeMaj (s2 : Option AggRecord) : PyVal :=
  match s2 with
  | none => .vstr "Uncertain"
  | some r => (dictGet r.toDict "majority_verdict").getD (.vstr "Uncertain")

/-- build_master_flagged_list.py line 108:
`final_decision = s2.get("final_decision", None)`. -/
def mergeFinalDecision (s2 : Option AggRecord) : Option PyVal :=
  match s2 with
  | none => none
  | some r => dictGet r.toDict "final_decision"

/-- The flagging rule of build_master_flagged_list.py lines 119-123,
evaluated on the Stage-1 initial verdict and the Stage-2 record (if any)
for the row's index. -/
def is_flagged (initial : String) (s2 : Option AggRecord) : Bool :=
  decide ((initial = "Refuted" ∨ initial = "Uncertain") ∨
    mergeMaj s2 = PyVal.vstr "Refuted" ∨
    mergeFinalDecision s2 = some (PyVal.vstr "Needs Review"))

/-- One row of a Stage-1 results file, with the fields the merge step
reads. -/
structure S1Row where
  index : Int
  assertion : String
  final_verdict : String
  reasoning : String
  deriving DecidableEq, Repr

/-- One entry of a Stage-1 assertions file, with the fields the merge step
reads. -/
structure AssertionRec where
  index : Int
  original_statement : String
  deriving DecidableEq, Repr

/-- One record of the master flagged list (the dict literal at
build_master_flagged_list.py lines 133-141). -/
structure FlaggedRecord where
  index : Int
  original_statement : String
  initial_verdict : String
  stage2_majority : PyVal
  final_decision : Option PyVal
  reasoning : String
  run_id : Int
  deriving DecidableEq, Repr

/-- build_master_flagged_list.py lines 111-114: the row's display text,
from the assertions file when it has a non-empty `original_statement` for
the index, else from the row itself, then stripped. -/
def origText (alist : List AssertionRec) (row : S1Row) : String :=
  let base : String :=
    match alist.find? (fun a => a.index = row.index) with
    | some a => pyOrStr a.original_statement row.assertion
    | none => row.assertion
  strStrip base

/-- The flagged record built for one surviving row. -/
def mkFlagged (stage2 : List AggRecord) (rid : Int) (alist : List AssertionRec)
    (row : S1Row) : FlaggedRecord :=
  let s2 := stage2.find? (fun v => v.index = row.index)
  { index := row.index
    original_statement := origText alist row
    initial_verdict := row.final_verdict
    stage2_majority := mergeMaj s2
    final_decision := mergeFinalDecision s2
    reasoning := row.reasoning
    run_id := rid }

/-- Python dict assignment `master[key] = value` on the insertion-ordered
association-list model: replace in place when the key exists, else
append. -/
def dictSet (m : List (String × FlaggedRecord)) (k : String) (v : FlaggedRecord) :
    List (String × FlaggedRecord) :=
  if m.any (fun p => p.1 = k) then m.map (fun p => if p.1 = k then (k, v) else p)
  else m ++ [(k, v)]

/-- The body of the row loop of build_master_flagged_list.py lines 98-141:
skip unflagged rows and rows with empty normalised text, else upsert the
flagged record under the lowercased text.  (Stage-2 records are matched by
index; the pipeline produces one record per index.) -/
def processRow (stage2 : List AggRecord) (alist : List AssertionRec) (rid : Int)
    (master : List (String × FlaggedRecord)) (row : S1Row) :
    List (String × FlaggedRecord) :=
  let s2 := stage2.find? (fun v => v.index = row.index)
  if is_flagged row.final_verdict s2 = false then master
  else
    let key := strLower (origText alist row)
    if key = "" then master
    else dictSet master key (mkFlagged stage2 rid alist row)

/-- One discovered Stage-1 run: its id, assertions file and results
file. -/
structure RunData where
  run_id : Int
  assertions : List AssertionRec
  rows : List S1Row

/-- Insertion step of the ascending sort over run ids
(`sorted(set(run_ids))` in discover_available_runs). -/
def insertRunSorted (r : RunData) (l : List RunData) : List RunData :=
  match l with
  | [] => [r]
  | x :: xs => if r.run_id ≤ x.run_id then r :: x :: xs else x :: insertRunSorted r xs

/-- Ascending sort of the discovered runs by run id. -/
def sortRuns (l : List RunData) : List RunData := l.foldr insertRunSorted []

/-- build_master_flagged_list.py `merge_flagged_assertions`: process all
discovered runs in ascending run-id order, folding every row of every run
into the master dict. -/
def merge_flagged_assertions (stage2 : List AggRecord) (runs : List RunData) :
    List (String × FlaggedRecord) :=
  (sortRuns runs).foldl
    (fun master run => run.rows.foldl (processRow stage2 run.assertions run.run_id) master)
    []

/-- One retrieved evidence document (document_retrieval.py schema); title
and url are optional because `doc.get` may find them absent. -/
structure Doc where
  title : Option String
  url : Option String
  snippet : String
  source : String
  deriving DecidableEq, Repr

/-- Python `(doc.get(k) or '').strip().lower()`. -/
def normPart (o : Option String) : String := strLower (strStrip (o.getD ""))

/-- The dedup key `f"{url-part}|{title-part}"` of
document_retrieval.py line 94. -/
def normKey (d : Doc) : String := normPart d.url ++ "|" ++ normPart d.title

/-- The dedup loop of document_retrieval.py lines 92-99 on the
insertion-ordered `unique` dict: skip documents whose key strips to
nothing, keep the first document per key. -/
def dedupDocs : List String → List Doc → List Doc
  | _, [] => []
  | seen, d :: rest =>
    if stripPipes (normKey d) = "" then dedupDocs seen rest
    else if normKey d ∈ seen then dedupDocs seen rest
    else d :: dedupDocs (normKey d :: seen) rest

/-- The `all_docs` accumulator of search_most_relevant: PubMed results,
then Tavily results only when PubMed returned fewer than `max_results`
documents and a Tavily API key is configured. -/
def allRetrieved (pubmedDocs tavilyDocs : List Doc) (hasTavilyKey : Bool)
    (max_results : Nat) : List Doc :=
  pubmedDocs ++
    (if pubmedDocs.length < max_results ∧ hasTavilyKey = true then tavilyDocs else [])

/-- document_retrieval.py `search_most_relevant` (lines 58-109), with the
two network sources modelled as input lists: strip the query and return
`[]` when it is empty (regardless of what the sources would return), else
collect, deduplicate and truncate to `max_results`. -/
def search_most_relevant (query : String) (pubmedDocs tavilyDocs : List Doc)
    (hasTavilyKey : Bool) (max_results : Nat) : List Doc :=
  let q := strStrip query
  if q = "" then []
  else
    let docs := dedupDocs [] (allRetrieved pubmedDocs tavilyDocs hasTavilyKey max_results)
    if max_results < docs.length then docs.take max_results else docs

/-- Concrete Stage-2 run with five passes of which two fail to parse. -/
def c4passes : List (Option (List Sample)) :=
  [some [⟨0, "Supported", 9 / 10⟩, ⟨1, "Refuted", 1 / 2⟩], none,
    some [⟨0, "Refuted", 1 / 2⟩], none, some [⟨0, "Supported", 7 / 10⟩]]

/-- The aggregate record for assertion 0 of `c4passes`. -/
def c4rec : AggRecord :=
  aggregateGroup 0 ((collectSamples c4passes).filter (fun s => s.index = 0))

/-- Concrete Stage-2 run for the C3 witness. -/
def c3passes : List (Option (List Sample)) :=
  [some [⟨0, "Supported", 1⟩], none, some [⟨0, "Refuted", 1 / 2⟩]]

/-- The aggregate record for assertion 0 of `c3passes`. -/
def c3rec : AggRecord :=
  aggregateGroup 0 ((collectSamples c3passes).filter (fun s => s.index = 0))

/-- Stage-2 record over five passes: 2 Supported, 2 Refuted, 1 Uncertain
(majority Supported, agreement ratio 0.4). -/
def c8agg : AggRecord :=
  aggregateGroup 0
    [⟨0, "Supported", 9 / 10⟩, ⟨0, "Supported", 9 / 10⟩, ⟨0, "Refuted", 9 / 10⟩,
      ⟨0, "Refuted", 9 / 10⟩, ⟨0, "Uncertain", 1 / 2⟩]

/-- First run's flagged row for the C9 witness. -/
def c9row1 : S1Row := ⟨0, " The Sun is a star.", "Refuted", "first reasoning"⟩

/-- Second run's flagged row for the C9 witness. -/
def c9row2 : S1Row := ⟨0, "the sun is a star. ", "Uncertain", "second reasoning"⟩

/-- A PubMed document for the C10 witness. -/
def c10doc1 : Doc := ⟨some "Aspirin Trial", some "https://pm/1", "abstract one", "pubmed"⟩

/-- A Tavily duplicate of `c10doc1` up to case and surrounding spaces. -/
def c10dup : Doc := ⟨some "aspirin trial ", some " HTTPS://pm/1", "dup", "tavily"⟩

/-- A document with no url and whitespace-only title. -/
def c10empty : Doc := ⟨some "  ", none, "no id", "tavily"⟩

/-- A second distinct document for the C10 witness. -/
def c10doc2 : Doc := ⟨some "Beta blockers", some "https://pm/2", "abstract two", "tavily"⟩

theorem lookupGroup_upsertAppend (acc : List (Int × List Sample)) (k : Int)
    (r : Sample) (k' : Int) :
    lookupGroup (upsertAppend acc k r) k' =
      if k' = k then some (((lookupGroup acc k).getD []) ++ [r])
      else lookupGroup acc k' := by
  by_cases hany : acc.any (fun p => p.1 = k)
  · obtain ⟨p0, hp0mem, hp0⟩ := List.any_eq_true.1 hany
    have hsome : (acc.find? (fun p => decide (p.1 = k))).isSome :=
      List.find?_isSome.2 ⟨p0, hp0mem, hp0⟩
    obtain ⟨q, hq⟩ := Option.isSome_iff_exists.1 hsome
    have hqk : q.1 = k := by
      have := List.find?_some hq
      simpa using this
    unfold upsertAppend lookupGroup
    rw [if_pos hany, List.find?_map]
    have hcomp :
        ((fun p : Int × List Sample => decide (p.1 = k')) ∘
          fun p : Int × List Sample =>
            if p.1 = k then (p.1, p.2 ++ [r]) else p) =
          fun p : Int × List Sample => decide (p.1 = k') := by
      funext p
      by_cases h : p.1 = k <;> simp [h]
    rw [hcomp]
    by_cases hkk : k' = k
    · subst hkk
      rw [hq]
      simp [lookupGroup, hq, hqk]
    · rw [if_neg hkk]
      cases h : acc.find? (fun p => decide (p.1 = k')) with
      | none => simp
      | some q' =>
        have hq'k : q'.1 = k' := by
          have := List.find?_some h
          simpa using this
        have : q'.1 ≠ k := by rw [hq'k]; exact hkk
        simp [this]
  · have hnone : acc.find? (fun p => decide (p.1 = k)) = none := by
      rw [List.find?_eq_none]
      intro x hx
      simp only [decide_eq_true_eq]
      intro hxk
      exact hany (List.any_eq_true.2 ⟨x, hx, by simpa using hxk⟩)
    unfold upsertAppend lookupGroup
    rw [if_neg hany, List.find?_append]
    by_cases hkk : k' = k
    · subst hkk
      rw [hnone]
      simp [lookupGroup, hnone]
    · cases h : acc.find? (fun p => decide (p.1 = k')) with
      | none =>
        simp only [h, Option.none_orElse, if_neg hkk]
        have : ¬ ((k, [r]).1 = k') := fun hc => hkk hc.symm
        simp [List.find?, this]
      | some q' => simp [h, if_neg hkk]

theorem lookupGroup_foldl (l : List Sample) :
    ∀ (acc : List (Int × List Sample)) (k : Int),
      lookupGroup (l.foldl (fun a r => upsertAppend a r.index r) acc) k =
        match lookupGroup acc k with
        | some g => some (g ++ l.filter (fun s => s.index = k))
        | none =>
          if l.any (fun s => s.index = k) then
            some (l.filter (fun s => s.index = k))
          else none := by
  induction l with
  | nil =>
    intro acc k
    cases h : lookupGroup acc k <;> simp [h]
  | cons r t ih =>
    intro acc k
    rw [List.foldl_cons, ih, lookupGroup_upsertAppend]
    by_cases hk : k = r.index
    · subst hk
      cases h : lookupGroup acc r.index with
      | some g => simp [h, List.filter_cons, List.any_cons]
      | none => simp [h, List.filter_cons, List.any_cons]
    · have hk' : ¬ (r.index = k) := fun hc => hk hc.symm
      rw [if_neg hk]
      cases h : lookupGroup acc k with
      | some g => simp [List.filter_cons, hk']
      | none => simp [List.filter_cons, List.any_cons, hk']

theorem groupKeys_upsertAppend (acc : List (Int × List Sample)) (k : Int) (r : Sample) :
    groupKeys (upsertAppend acc k r) =
      if acc.any (fun p => p.1 = k) then groupKeys acc else groupKeys acc ++ [k] := by
  unfold upsertAppend groupKeys
  split_ifs with h
  · rw [List.map_map]
    congr 1
    funext p
    by_cases hp : p.1 = k <;> simp [hp]
  · simp

theorem groupKeys_nodup_upsertAppend (acc : List (Int × List Sample)) (k : Int)
    (r : Sample) (h : (groupKeys acc).Nodup) :
    (groupKeys (upsertAppend acc k r)).Nodup := by
  rw [groupKeys_upsertAppend]
  split_ifs with hany
  · exact h
  · rw [List.nodup_append]
    refine ⟨h, List.nodup_singleton k, ?_⟩
    intro a ha hb
    have hak : a = k := by simpa using hb
    subst hak
    obtain ⟨p, hp, hpk⟩ := List.mem_map.1 ha
    exact hany (List.any_eq_true.2 ⟨p, hp, by simpa using hpk⟩)

theorem groupKeys_nodup_foldl (l : List Sample) :
    ∀ acc : List (Int × List Sample), (groupKeys acc).Nodup →
      (groupKeys (l.foldl (fun a r => upsertAppend a r.index r) acc)).Nodup := by
  induction l with
  | nil => intro acc h; exact h
  | cons r t ih =>
    intro acc h
    exact ih _ (groupKeys_nodup_upsertAppend acc r.index r h)

theorem find?_of_mem_nodupKeys (acc : List (Int × List Sample))
    (hn : (groupKeys acc).Nodup) (p : Int × List Sample) (hp : p ∈ acc) :
    acc.find? (fun q => q.1 = p.1) = some p := by
  induction acc with
  | nil => cases hp
  | cons q t ih =>
    rcases List.mem_cons.1 hp with hq | ht
    · subst hq
      simp [List.find?]
    · have hqp : ¬ (q.1 = p.1) := by
        intro hc
        have hkeys : p.1 ∈ groupKeys t := List.mem_map.2 ⟨p, ht, rfl⟩
        have : q.1 ∉ groupKeys t := by
          have := (List.nodup_cons.1 hn).1
          simpa [groupKeys] using this
        rw [hc] at this
        exact this hkeys
      have hn' : (groupKeys t).Nodup := (List.nodup_cons.1 hn).2
      rw [List.find?_cons, decide_eq_false hqp]
      exact ih hn' ht

/-- Shared characterisation of the Aggregator's output records: every
record it produces is the aggregate of exactly the surviving samples
carrying its assertion index, and that sample set is nonempty. -/
theorem mem_stage2Aggregate_eq (passes : List (Option (List Sample)))
    (rec : AggRecord) (h : rec ∈ stage2Aggregate passes) :
    rec = aggregateGroup rec.index
        ((collectSamples passes).filter (fun s => s.index = rec.index)) ∧
      (collectSamples passes).filter (fun s => s.index = rec.index) ≠ [] := by
  obtain ⟨p, hp, hrec⟩ := List.mem_map.1 h
  have hidx : rec.index = p.1 := by rw [← hrec]; rfl
  have hnodup : (groupKeys (groupByIndex (collectSamples passes))).Nodup :=
    groupKeys_nodup_foldl _ [] (by simp [groupKeys])
  have hfind := find?_of_mem_nodupKeys _ hnodup p hp
  have hlk : lookupGroup (groupByIndex (collectSamples passes)) p.1 = some p.2 := by
    unfold lookupGroup
    rw [hfind]
    rfl
  rw [groupByIndex, lookupGroup_foldl] at hlk
  simp only [lookupGroup, List.find?_nil, Option.map_none] at hlk
  by_cases hany : (collectSamples passes).any (fun s => s.index = p.1)
  · rw [if_pos hany] at hlk
    have hg : p.2 = (collectSamples passes).filter (fun s => s.index = p.1) :=
      (Option.some_injective _ hlk).symm
    constructor
    · rw [hidx, ← hg]
      exact hrec.symm
    · rw [hidx, ← hg]
      obtain ⟨s, hs, hsk⟩ := List.any_eq_true.1 hany
      intro hc
      have hmem : s ∈ p.2 := by
        rw [hg]
        exact List.mem_filter.2 ⟨hs, hsk⟩
      rw [hc] at hmem
      cases hmem
  · rw [if_neg hany] at hlk
    cases hlk

theorem count_three_labels (l : List String)
    (h : ∀ v ∈ l, v = "Supported" ∨ v = "Refuted" ∨ v = "Uncertain") :
    l.count "Supported" + l.count "Refuted" + l.count "Uncertain" = l.length := by
  induction l with
  | nil => simp
  | cons a t ih =>
    have ha := h a (List.mem_cons_self a t)
    have ht : ∀ v ∈ t, v = "Supported" ∨ v = "Refuted" ∨ v = "Uncertain" :=
      fun v hv => h v (List.mem_cons_of_mem a hv)
    have hsr : ("Refuted" : String) ≠ "Supported" := by decide
    have hsu : ("Uncertain" : String) ≠ "Supported" := by decide
    have hru : ("Uncertain" : String) ≠ "Refuted" := by decide
    have hrs : ("Supported" : String) ≠ "Refuted" := by decide
    have hus : ("Supported" : String) ≠ "Uncertain" := by decide
    have hur : ("Refuted" : String) ≠ "Uncertain" := by decide
    have hih := ih ht
    rcases ha with h1 | h1 | h1 <;> subst h1 <;>
      simp [List.count_cons, hsr, hsu, hru, hrs, hus, hur] <;> omega

/-- The three numeric invariants of one aggregated group: label counts sum
to the group size when every verdict is one of the three labels, and —
unconditionally — the agreement ratio is the rounded majority share and
the mean confidence is the rounded arithmetic mean of all confidences. -/
theorem aggregateGroup_invariants (k : Int) (g : List Sample) :
    ((∀ s ∈ g, s.final_verdict = "Supported" ∨ s.final_verdict = "Refuted" ∨
        s.final_verdict = "Uncertain") →
      (aggregateGroup k g).num_supported + (aggregateGroup k g).num_refuted +
        (aggregateGroup k g).num_uncertain = (g.length : Int)) ∧
      (aggregateGroup k g).agreement_ratio =
        round4 ((((g.map (·.final_verdict)).count
            (aggregateGroup k g).majority_verdict : Nat) : Rat) / (g.length : Rat)) ∧
      (aggregateGroup k g).mean_confidence =
        round4 ((g.map (·.confidence)).sum / (g.length : Rat)) := by
  refine ⟨?_, ?_, ?_⟩
  · intro hlab
    show ((g.map (·.final_verdict)).count "Supported" : Int) +
        ((g.map (·.final_verdict)).count "Refuted" : Int) +
        ((g.map (·.final_verdict)).count "Uncertain" : Int) = (g.length : Int)
    have hc := count_three_labels (g.map (·.final_verdict)) (by
      intro v hv
      obtain ⟨s, hs, rfl⟩ := List.mem_map.1 hv
      exact hlab s hs)
    have hlen : (g.map (·.final_verdict)).length = g.length := by simp
    omega
  · have hlen : (g.map (·.final_verdict)).length = g.length := by simp
    rw [← hlen]
    rfl
  · have hlen : (g.map (·.confidence)).length = g.length := by simp
    rw [← hlen]
    rfl

/-- C1: evaluating the Aggregator on one assertion whose four per-pass
verdicts are the 2-2 tie Supported, Supported, Refuted, Refuted: the
`statistics.mode`-based majority vote resolves to "Supported" (the first
label encountered among the tied maximal ones), not to "Uncertain" as the
specified tie-break demands. -/
theorem C1_tie_majority_eval :
    (stage2Aggregate
        [some [⟨0, "Supported", 9 / 10⟩], some [⟨0, "Supported", 9 / 10⟩],
          some [⟨0, "Refuted", 9 / 10⟩], some [⟨0, "Refuted", 9 / 10⟩]]).map
        (fun rec => (rec.majority_verdict, rec.num_supported, rec.num_refuted,
          rec.num_uncertain))
      = [("Supported", 2, 2, 0)] := by
  decide

/-- C2: the final decision is Supported iff the Stage-2 majority is
Supported with agreement ratio at least 0.6, Refuted iff the majority is
Refuted with ratio at least 0.6, and "Needs Review" otherwise, for every
initial verdict; the cutoff is inclusive at exactly 0.6 (ratio 0.6 yields
the majority label, 0.599 yields "Needs Review"). -/
theorem C2_final_decision_threshold (iv mv : String) (r : Rat) :
    (compute_final_decision iv mv r = "Supported" ↔ mv = "Supported" ∧ r ≥ 0.6) ∧
    (compute_final_decision iv mv r = "Refuted" ↔ mv = "Refuted" ∧ r ≥ 0.6) ∧
    (compute_final_decision iv mv r = "Needs Review" ↔
      ¬(mv = "Supported" ∧ r ≥ 0.6) ∧ ¬(mv = "Refuted" ∧ r ≥ 0.6)) ∧
    compute_final_decision iv "Supported" (6 / 10) = "Supported" ∧
    compute_final_decision iv "Supported" (599 / 1000) = "Needs Review" := by
  unfold compute_final_decision
  have hs : ((6 : Rat) / 10) ≥ 0.6 := by norm_num
  have hn : ¬ ((599 : Rat) / 1000) ≥ 0.6 := by norm_num
  by_cases hmv : mv = "" <;>
    simp only [hmv, if_true, if_false, reduceIte] <;>
    split_ifs <;> simp_all

/-- C6: the initial Stage-1 verdict is accepted as an argument of the
final decision function but has no influence on its result: any two runs
that differ only in the initial verdict produce the same final label. -/
theorem C6_initial_verdict_noninterference (iv iv' mv : String) (r : Rat) :
    compute_final_decision iv mv r = compute_final_decision iv' mv r := rfl

/-- C3 counterexample: a surviving sample whose verdict string is none of
the three expected labels (possible because the batch loop stores whatever
JSON the oracle produced, without schema validation) yields an aggregate
record whose three label counts sum to 0 although one sample was
aggregated. -/
theorem C3_count_sum_counterexample :
    ((stage2Aggregate [some [⟨0, "Probably", 1⟩]]).map
        (fun rec => rec.num_supported + rec.num_refuted + rec.num_uncertain) = [0]) ∧
      (collectSamples [some [⟨0, "Probably", 1⟩]]).length = 1 := by
  decide

/-- C3 (amended): for every aggregate record the Aggregator produces,
provided every surviving sample's verdict is one of Supported, Refuted and
Uncertain, the three label counts sum to the number of samples aggregated
for that assertion; unconditionally, the agreement ratio is the count of
the majority label divided by that total and the mean confidence is the
arithmetic mean of all the samples' confidences regardless of label, both
rounded to 4 decimal digits. -/
theorem C3_aggregate_record_invariants (passes : List (Option (List Sample)))
    (rec : AggRecord) (h : rec ∈ stage2Aggregate passes) :
    ((∀ s ∈ collectSamples passes,
        s.final_verdict = "Supported" ∨ s.final_verdict = "Refuted" ∨
          s.final_verdict = "Uncertain") →
      rec.num_supported + rec.num_refuted + rec.num_uncertain =
        ((((collectSamples passes).filter (fun s => s.index = rec.index)).length : Nat) : Int)) ∧
      rec.agreement_ratio =
        round4 ((((((collectSamples passes).filter (fun s => s.index = rec.index)).map
              (·.final_verdict)).count rec.majority_verdict : Nat) : Rat) /
            ((((collectSamples passes).filter (fun s => s.index = rec.index)).length : Nat) : Rat)) ∧
      rec.mean_confidence =
        round4 (((((collectSamples passes).filter (fun s => s.index = rec.index)).map
            (·.confidence)).sum) /
          ((((collectSamples passes).filter (fun s => s.index = rec.index)).length : Nat) : Rat)) := by
  obtain ⟨heq, _⟩ := mem_stage2Aggregate_eq passes rec h
  have hinv := aggregateGroup_invariants rec.index
    ((collectSamples passes).filter (fun s => s.index = rec.index))
  rw [← heq] at hinv
  exact ⟨fun hlab => hinv.1 (fun s hs => hlab s (List.mem_of_mem_filter hs)),
    hinv.2.1, hinv.2.2⟩

theorem C3_aggregate_record_invariants_witness :
    c3rec ∈ stage2Aggregate c3passes ∧
      (∀ s ∈ collectSamples c3passes,
        s.final_verdict = "Supported" ∨ s.final_verdict = "Refuted" ∨
          s.final_verdict = "Uncertain") ∧
      (c3rec.num_supported + c3rec.num_refuted + c3rec.num_uncertain =
        ((((collectSamples c3passes).filter (fun s => s.index = c3rec.index)).length : Nat) : Int) ∧
        c3rec.agreement_ratio =
          round4 ((((((collectSamples c3passes).filter (fun s => s.index = c3rec.index)).map
                (·.final_verdict)).count c3rec.majority_verdict : Nat) : Rat) /
              ((((collectSamples c3passes).filter (fun s => s.index = c3rec.index)).length : Nat) : Rat)) ∧
        c3rec.mean_confidence =
          round4 (((((collectSamples c3passes).filter (fun s => s.index = c3rec.index)).map
              (·.confidence)).sum) /
            ((((collectSamples c3passes).filter (fun s => s.index = c3rec.index)).length : Nat) : Rat))) := by
  have hmem : c3rec ∈ stage2Aggregate c3passes := by
    have h0 : stage2Aggregate c3passes = [c3rec] := rfl
    rw [h0]
    exact List.mem_singleton.2 rfl
  have hlab : ∀ s ∈ collectSamples c3passes,
      s.final_verdict = "Supported" ∨ s.final_verdict = "Refuted" ∨
        s.final_verdict = "Uncertain" := by decide
  have hthm := C3_aggregate_record_invariants c3passes c3rec hmem
  exact ⟨hmem, hlab, hthm.1 hlab, hthm.2.1, hthm.2.2⟩

/-- C4: a verification pass whose oracle response fails to parse (`none`)
contributes no samples: the aggregate output coincides with the output
over only the surviving (`some`) passes; every produced record is the
aggregate of exactly the surviving samples bearing its assertion index (so
ratios are computed over the surviving sample count); and an assertion
index with zero surviving samples yields no record at all. -/
theorem C4_failed_pass_skipped (passes : List (Option (List Sample))) :
    stage2Aggregate passes = stage2Aggregate ((passes.filterMap id).map some) ∧
      (∀ rec ∈ stage2Aggregate passes,
        rec = aggregateGroup rec.index
            ((collectSamples passes).filter (fun s => s.index = rec.index)) ∧
          (collectSamples passes).filter (fun s => s.index = rec.index) ≠ []) ∧
      ∀ i : Int, (∀ s ∈ collectSamples passes, s.index ≠ i) →
        ∀ rec ∈ stage2Aggregate passes, rec.index ≠ i := by
  refine ⟨?_, fun rec h => mem_stage2Aggregate_eq passes rec h, ?_⟩
  · have hcol : collectSamples ((passes.filterMap id).map some) = collectSamples passes := by
      unfold collectSamples
      rw [List.filterMap_map]
      simp
    unfold stage2Aggregate
    rw [hcol]
  · intro i hi rec hrec hcontra
    obtain ⟨_, hne⟩ := mem_stage2Aggregate_eq passes rec hrec
    rw [hcontra] at hne
    apply hne
    rw [List.filter_eq_nil_iff]
    intro s hs
    simpa using hi s hs

theorem C4_failed_pass_skipped_witness :
    c4rec ∈ stage2Aggregate c4passes ∧
      (c4rec = aggregateGroup c4rec.index
          ((collectSamples c4passes).filter (fun s => s.index = c4rec.index)) ∧
        (collectSamples c4passes).filter (fun s => s.index = c4rec.index) ≠ []) ∧
      (∀ s ∈ collectSamples c4passes, s.index ≠ 7) ∧
      ∀ rec ∈ stage2Aggregate c4passes, rec.index ≠ 7 := by
  have hmem : c4rec ∈ stage2Aggregate c4passes := by
    have h0 : stage2Aggregate c4passes = [c4rec, aggregateGroup 1 [⟨1, "Refuted", 1 / 2⟩]] :=
      rfl
    rw [h0]
    exact List.mem_cons_self _ _
  have hno7 : ∀ s ∈ collectSamples c4passes, s.index ≠ 7 := by decide
  exact ⟨hmem, (C4_failed_pass_skipped c4passes).2.1 c4rec hmem, hno7,
    (C4_failed_pass_skipped c4passes).2.2 7 hno7⟩

/-- C5 counterexample: an oracle response that parses as JSON but is not
an object (here the JSON array `[]`) is schema-mismatched output on which
`fact_check_single_pass` does crash: `data.get` raises AttributeError,
which the function does not catch (only `json.loads` is guarded). -/
theorem C5_schema_mismatch_counterexample :
    fact_check_single_pass "a" "[]" (some (.jarr [])) 1 1 =
      .error .attributeError := rfl

/-- C5 (amended): an oracle response that fails to parse as JSON never
propagates a crash: in single-call mode the fact-checker returns the
fallback record with verdict Uncertain, confidence 0.0 and the raw
response text as reasoning, and in batch mode the failed pass contributes
no samples at all.  (A response that parses as non-object JSON, however,
raises an uncaught AttributeError in single-call mode — see the
counterexample.) -/
theorem C5_nonjson_fallback (assertion responseText : String) (run_id pass_id : Int) :
    fact_check_single_pass assertion responseText none run_id pass_id =
      .ok { assertion := assertion, final_verdict := .jstr "Uncertain",
            reasoning := .jstr responseText, confidence := 0,
            run_id := run_id, pass_id := pass_id } ∧
      ∀ passes : List (Option (List Sample)),
        collectSamples (none :: passes) = collectSamples passes := by
  exact ⟨rfl, fun passes => rfl⟩

/-- C7: evaluation of the code on the claim's precondition (the chapter
file exists, its text is non-empty, assertion extraction succeeded with a
non-empty list): Stage 1 does not complete; it raises TypeError, because
run_stage1 passes the keyword argument `pass_id` which
`fact_check_assertions` does not accept. -/
theorem C7_stage1_raises_typeerror (chapterText : String) (extracted : List String)
    (results : List PassRecord) (htext : chapterText ≠ "") (hext : extracted ≠ []) :
    run_stage1 true chapterText extracted results = .error .typeError := by
  unfold run_stage1
  rw [if_neg (by simp), if_neg htext, if_neg hext, if_pos (by decide)]

theorem C7_stage1_raises_typeerror_witness :
    ("All cells respire." : String) ≠ "" ∧ (["Cells respire."] : List String) ≠ [] ∧
      run_stage1 true "All cells respire." ["Cells respire."] [] = .error .typeError :=
  ⟨by decide, by decide,
    C7_stage1_raises_typeerror "All cells respire." ["Cells respire."] []
      (by decide) (by decide)⟩

/-- C8: evaluation of the flagging rule at a row whose Stage-3 final
decision is "Needs Review" (initial Supported, majority Supported,
agreement 0.4 below the 0.6 threshold): the code does not flag the row,
because it reads "final_decision" from the Stage-2 aggregate record, which
never carries that key, so the Needs-Review clause compares None with
"Needs Review" and is always false. -/
theorem C8_flag_ignores_stage3_decision :
    is_flagged "Supported" (some c8agg) = false ∧
      mergeFinalDecision (some c8agg) = none ∧
      compute_final_decision "Supported" c8agg.majority_verdict c8agg.agreement_ratio =
        "Needs Review" := by
  refine ⟨by decide, rfl, ?_⟩
  have hmaj : c8agg.majority_verdict = "Supported" := rfl
  have h1 : c8agg.agreement_ratio = round4 (((2 : Nat) : Rat) / ((5 : Nat) : Rat)) := rfl
  have h2 : round4 (((2 : Nat) : Rat) / ((5 : Nat) : Rat)) = 2 / 5 := by
    norm_num [round4, roundHalfEven]
  rw [hmaj, h1, h2]
  simp [compute_final_decision, show ¬((2 : Rat) / 5 ≥ 0.6) by norm_num]

theorem processRow_flagged (stage2 : List AggRecord) (alist : List AssertionRec)
    (rid : Int) (master : List (String × FlaggedRecord)) (row : S1Row)
    (hf : is_flagged row.final_verdict
      (stage2.find? (fun v => v.index = row.index)) = true)
    (hk : strLower (origText alist row) ≠ "") :
    processRow stage2 alist rid master row =
      dictSet master (strLower (origText alist row)) (mkFlagged stage2 rid alist row) := by
  simp only [processRow]
  rw [hf]
  simp [hk]

/-- C9: when two Stage-1 runs each contribute one flagged row whose
normalised (stripped, lowercased) texts coincide and are non-empty, the
master flagged list holds exactly one record under that text, built from
the row of the higher run id — whichever order the runs are supplied in,
since merging sorts runs ascending by id and later runs overwrite. -/
theorem C9_dedup_last_run_wins (stage2 : List AggRecord) (r1 r2 : Int)
    (a1 a2 : List AssertionRec) (row1 row2 : S1Row) (hlt : r1 < r2)
    (hf1 : is_flagged row1.final_verdict
      (stage2.find? (fun v => v.index = row1.index)) = true)
    (hf2 : is_flagged row2.final_verdict
      (stage2.find? (fun v => v.index = row2.index)) = true)
    (hkey : strLower (origText a1 row1) = strLower (origText a2 row2))
    (hne : strLower (origText a2 row2) ≠ "") :
    merge_flagged_assertions stage2 [⟨r1, a1, [row1]⟩, ⟨r2, a2, [row2]⟩] =
        [(strLower (origText a2 row2), mkFlagged stage2 r2 a2 row2)] ∧
      merge_flagged_assertions stage2 [⟨r2, a2, [row2]⟩, ⟨r1, a1, [row1]⟩] =
        [(strLower (origText a2 row2), mkFlagged stage2 r2 a2 row2)] := by
  have hle : r1 ≤ r2 := le_of_lt hlt
  have hnle : ¬ (r2 ≤ r1) := not_le.mpr hlt
  have hne1 : strLower (origText a1 row1) ≠ "" := by rw [hkey]; exact hne
  have hsort1 : sortRuns [(⟨r1, a1, [row1]⟩ : RunData), ⟨r2, a2, [row2]⟩] =
      [⟨r1, a1, [row1]⟩, ⟨r2, a2, [row2]⟩] := by
    simp [sortRuns, insertRunSorted, hle]
  have hsort2 : sortRuns [(⟨r2, a2, [row2]⟩ : RunData), ⟨r1, a1, [row1]⟩] =
      [⟨r1, a1, [row1]⟩, ⟨r2, a2, [row2]⟩] := by
    simp [sortRuns, insertRunSorted, hnle]
  have hmain : ([(⟨r1, a1, [row1]⟩ : RunData), ⟨r2, a2, [row2]⟩]).foldl
      (fun master run =>
        run.rows.foldl (processRow stage2 run.assertions run.run_id) master) [] =
      [(strLower (origText a2 row2), mkFlagged stage2 r2 a2 row2)] := by
    simp only [List.foldl_cons, List.foldl_nil]
    rw [processRow_flagged stage2 a1 r1 [] row1 hf1 hne1,
      processRow_flagged stage2 a2 r2 _ row2 hf2 hne]
    rw [show dictSet [] (strLower (origText a1 row1)) (mkFlagged stage2 r1 a1 row1) =
        [(strLower (origText a1 row1), mkFlagged stage2 r1 a1 row1)] from rfl]
    simp [dictSet, hkey]
  constructor
  · unfold merge_flagged_assertions
    rw [hsort1]
    exact hmain
  · unfold merge_flagged_assertions
    rw [hsort2]
    exact hmain

theorem C9_dedup_last_run_wins_witness :
    (1 : Int) < 2 ∧
      is_flagged c9row1.final_verdict
        (([] : List AggRecord).find? (fun v => v.index = c9row1.index)) = true ∧
      is_flagged c9row2.final_verdict
        (([] : List AggRecord).find? (fun v => v.index = c9row2.index)) = true ∧
      strLower (origText [] c9row1) = strLower (origText [] c9row2) ∧
      strLower (origText [] c9row2) ≠ "" ∧
      merge_flagged_assertions [] [⟨1, [], [c9row1]⟩, ⟨2, [], [c9row2]⟩] =
        [(strLower (origText [] c9row2), mkFlagged [] 2 [] c9row2)] := by
  have hlt : (1 : Int) < 2 := by norm_num
  have hf1 : is_flagged c9row1.final_verdict
      (([] : List AggRecord).find? (fun v => v.index = c9row1.index)) = true := by decide
  have hf2 : is_flagged c9row2.final_verdict
      (([] : List AggRecord).find? (fun v => v.index = c9row2.index)) = true := by decide
  have hkey : strLower (origText [] c9row1) = strLower (origText [] c9row2) := by decide
  have hne : strLower (origText [] c9row2) ≠ "" := by decide
  exact ⟨hlt, hf1, hf2, hkey, hne,
    (C9_dedup_last_run_wins [] 1 2 [] [] c9row1 c9row2 hlt hf1 hf2 hkey hne).1⟩

theorem dedupDocs_mem (l : List Doc) :
    ∀ (seen : List String), ∀ d ∈ dedupDocs seen l,
      stripPipes (normKey d) ≠ "" ∧ normKey d ∉ seen ∧
        l.find? (fun x => normKey x = normKey d) = some d := by
  induction l with
  | nil => intro seen d hd; cases hd
  | cons c rest ih =>
    intro seen d hd
    by_cases hempty : stripPipes (normKey c) = ""
    · rw [show dedupDocs seen (c :: rest) = dedupDocs seen rest by
        simp [dedupDocs, hempty]] at hd
      obtain ⟨h1, h2, h3⟩ := ih seen d hd
      refine ⟨h1, h2, ?_⟩
      have hne : ¬ (normKey c = normKey d) := fun hc => h1 (hc ▸ hempty)
      rw [List.find?_cons, decide_eq_false hne]
      exact h3
    · by_cases hseen : normKey c ∈ seen
      · rw [show dedupDocs seen (c :: rest) = dedupDocs seen rest by
          simp [dedupDocs, hempty, hseen]] at hd
        obtain ⟨h1, h2, h3⟩ := ih seen d hd
        have hne : ¬ (normKey c = normKey d) := fun hc => h2 (hc ▸ hseen)
        refine ⟨h1, h2, ?_⟩
        rw [List.find?_cons, decide_eq_false hne]
        exact h3
      · rw [show dedupDocs seen (c :: rest) = c :: dedupDocs (normKey c :: seen) rest by
          simp [dedupDocs, hempty, hseen]] at hd
        rcases List.mem_cons.1 hd with hdc | hdrest
        · subst hdc
          refine ⟨hempty, hseen, ?_⟩
          rw [List.find?_cons, decide_eq_true rfl]
        · obtain ⟨h1, h2, h3⟩ := ih (normKey c :: seen) d hdrest
          have hnc : ¬ (normKey c = normKey d) := by
            intro hc
            exact h2 (hc ▸ List.mem_cons_self _ _)
          refine ⟨h1, fun hs => h2 (List.mem_cons_of_mem _ hs), ?_⟩
          rw [List.find?_cons, decide_eq_false hnc]
          exact h3

theorem dedupDocs_pairwise (l : List Doc) :
    ∀ seen : List String,
      (dedupDocs seen l).Pairwise (fun a b => normKey a ≠ normKey b) := by
  induction l with
  | nil => intro seen; simp [dedupDocs]
  | cons c rest ih =>
    intro seen
    by_cases hempty : stripPipes (normKey c) = ""
    · rw [show dedupDocs seen (c :: rest) = dedupDocs seen rest by
        simp [dedupDocs, hempty]]
      exact ih seen
    · by_cases hseen : normKey c ∈ seen
      · rw [show dedupDocs seen (c :: rest) = dedupDocs seen rest by
          simp [dedupDocs, hempty, hseen]]
        exact ih seen
      · rw [show dedupDocs seen (c :: rest) = c :: dedupDocs (normKey c :: seen) rest by
          simp [dedupDocs, hempty, hseen]]
        rw [List.pairwise_cons]
        refine ⟨?_, ih (normKey c :: seen)⟩
        intro b hb
        obtain ⟨_, hnotin, _⟩ := dedupDocs_mem rest (normKey c :: seen) b hb
        exact fun hc => hnotin (hc ▸ List.mem_cons_self _ _)

/-- C10: `search_most_relevant` returns at most `max_results` documents;
an empty or whitespace-only query yields the empty list no matter what the
sources hold (they are never consulted); every returned document is the
first-retrieved document with its normalised (url, title) key, so later
duplicates are discarded; documents whose url and title are both empty
after normalisation are dropped; and no two returned documents share a
key. -/
theorem C10_search_most_relevant_props (query : String)
    (pubmedDocs tavilyDocs : List Doc) (hasKey : Bool) (max_results : Nat) :
    (search_most_relevant query pubmedDocs tavilyDocs hasKey max_results).length ≤
        max_results ∧
      (strStrip query = "" →
        search_most_relevant query pubmedDocs tavilyDocs hasKey max_results = []) ∧
      (∀ d ∈ search_most_relevant query pubmedDocs tavilyDocs hasKey max_results,
        (allRetrieved pubmedDocs tavilyDocs hasKey max_results).find?
            (fun x => normKey x = normKey d) = some d ∧
          ¬ (normPart d.url = "" ∧ normPart d.title = "")) ∧
      (search_most_relevant query pubmedDocs tavilyDocs hasKey max_results).Pairwise
        (fun a b => normKey a ≠ normKey b) := by
  by_cases hq : strStrip query = ""
  · rw [show search_most_relevant query pubmedDocs tavilyDocs hasKey max_results = [] by
      simp [search_most_relevant, hq]]
    refine ⟨by simp, fun _ => rfl, by simp, by simp⟩
  · have hsearch : search_most_relevant query pubmedDocs tavilyDocs hasKey max_results =
        (if max_results <
            (dedupDocs [] (allRetrieved pubmedDocs tavilyDocs hasKey max_results)).length
          then (dedupDocs [] (allRetrieved pubmedDocs tavilyDocs hasKey max_results)).take
            max_results
          else dedupDocs [] (allRetrieved pubmedDocs tavilyDocs hasKey max_results)) := by
      simp [search_most_relevant, hq]
    have hsub : ∀ d ∈ search_most_relevant query pubmedDocs tavilyDocs hasKey max_results,
        d ∈ dedupDocs [] (allRetrieved pubmedDocs tavilyDocs hasKey max_results) := by
      intro d hd
      rw [hsearch] at hd
      split_ifs at hd with hlen
      · exact List.mem_of_mem_take hd
      · exact hd
    refine ⟨?_, fun hq0 => absurd hq0 hq, ?_, ?_⟩
    · rw [hsearch]
      split_ifs with hlen
      · simp [List.length_take]
      · exact le_of_not_lt hlen
    · intro d hd
      obtain ⟨h1, _, h3⟩ := dedupDocs_mem
        (allRetrieved pubmedDocs tavilyDocs hasKey max_results) [] d (hsub d hd)
      refine ⟨h3, ?_⟩
      rintro ⟨hu, ht⟩
      apply h1
      have hk : normKey d = "|" := by
        unfold normKey
        rw [hu, ht]
        rfl
      rw [hk]
      rfl
    · have hpw := dedupDocs_pairwise
        (allRetrieved pubmedDocs tavilyDocs hasKey max_results) []
      rw [hsearch]
      split_ifs with hlen
      · exact hpw.sublist (List.take_sublist _ _)
      · exact hpw

theorem C10_search_most_relevant_props_witness :
    strStrip " " = "" ∧
      search_most_relevant " " [c10doc1] [c10doc2] true 8 = [] ∧
      (search_most_relevant "heart" [c10doc1] [c10dup, c10empty, c10doc2] true 8).length ≤ 8 ∧
      c10doc1 ∈ search_most_relevant "heart" [c10doc1] [c10dup, c10empty, c10doc2] true 8 ∧
      ((allRetrieved [c10doc1] [c10dup, c10empty, c10doc2] true 8).find?
          (fun x => normKey x = normKey c10doc1) = some c10doc1 ∧
        ¬ (normPart c10doc1.url = "" ∧ normPart c10doc1.title = "")) := by
  have hmem2 : c10doc1 ∈ search_most_relevant "heart" [c10doc1] [c10dup, c10empty, c10doc2]
      true 8 := by decide
  exact ⟨rfl,
    (C10_search_most_relevant_props " " [c10doc1] [c10doc2] true 8).2.1 rfl,
    (C10_search_most_relevant_props "heart" [c10doc1] [c10dup, c10empty, c10doc2] true 8).1,
    hmem2,
    (C10_search_most_relevant_props "heart" [c10doc1] [c10dup, c10empty, c10doc2] true
      8).2.2.1 c10doc1 hmem2⟩
